import Mathlib

/-!
Shallow embedding of the ROV thruster-control core of this repository
(`thruster_pwm.py` and `controller.py`).

Python floats are modelled as rationals (`ℚ`); the dyadic values this program
manipulates are represented exactly.  Python `int()` truncation toward zero is
`pyInt`.  Fallible code paths (division by zero, list indexing, `float()`
parsing, dict lookup, subscripting a non-list) return `Except PyError`.
-/

namespace SurfaceCode

/-- Python exception kinds raised by the modelled code paths. -/
inductive PyError where
  | zeroDivisionError
  | indexError
  | valueError
  | typeError
  | keyError
deriving DecidableEq

/-- Python `int()` applied to a float: truncation toward zero, modelled on `ℚ`. -/
def pyInt (q : ℚ) : ℤ := if q < 0 then -⌊-q⌋ else ⌊q⌋

/-- State of one thruster: the fields set by `Thruster.__init__` in
`thruster_pwm.py` (`power`, `polarity_mask`, `multiplier`, `pulse_range`). -/
structure ThrusterState where
  power : ℚ
  polarity_mask : ℤ
  multiplier : ℚ
  pulse_range : ℤ × ℤ
deriving DecidableEq

namespace Thruster

/-- Model of `Thruster.__init__(reverse_polarity, power_multiplier, pulse_range)`.
The source annotates `reverse_polarity : bool`, but its callers pass values
produced by `is_bool`, which can be `None`; Python evaluates the argument's
truthiness in `-1 if reverse_polarity else 1`, so the model takes an
`Option Bool` (`none` and `some false` are both falsy).  `pulse_range` defaults
to `(1100, 1900)` when absent (`None` is falsy, a pair is always truthy). -/
def init (reverse_polarity : Option Bool) (power_multiplier : ℚ)
    (pulse_range : Option (ℤ × ℤ)) : ThrusterState :=
  { power := 0
    polarity_mask := if reverse_polarity = some true then -1 else 1
    multiplier := min (max power_multiplier 0) 1
    pulse_range := pulse_range.getD (1100, 1900) }

/-- Model of `Thruster.get_pwm`:
`int(pulse_range[0] + 0.5 * (pulse_range[1] - pulse_range[0]) * power)` where
`power = self.power * self.polarity_mask * self.multiplier` (the source has no
`+ 1` on `power`; its NOTE comment records that the offset was removed). -/
def get_pwm (t : ThrusterState) : ℤ :=
  let power := t.power * (t.polarity_mask : ℚ) * t.multiplier
  pyInt ((t.pulse_range.1 : ℚ) +
    (1 / 2) * ((t.pulse_range.2 : ℚ) - (t.pulse_range.1 : ℚ)) * power)

/-- Model of `Thruster.reverse_polarity`: multiplies the mask by `-1` and
returns `True if self.polarity_mask == -1 else False` along with the new state. -/
def reverse_polarity (t : ThrusterState) : Bool × ThrusterState :=
  let t' := { t with polarity_mask := t.polarity_mask * -1 }
  (if t'.polarity_mask = -1 then true else false, t')

/-- Model of `Thruster.set_power(power)`: `self.power = min(max(power, 0), 1)`. -/
def set_power (t : ThrusterState) (power : ℚ) : ThrusterState :=
  { t with power := min (max power 0) 1 }

/-- Model of `Thruster.set_multiplier(power_multiplier)`. -/
def set_multiplier (t : ThrusterState) (power_multiplier : ℚ) : ThrusterState :=
  { t with multiplier := min (max power_multiplier 0) 1 }

/-- Model of `Thruster.get_multiplier`: `self.multiplier * self.polarity_mask`. -/
def get_multiplier (t : ThrusterState) : ℚ :=
  t.multiplier * (t.polarity_mask : ℚ)

end Thruster

/-- The four entries of the dict returned by `lateral_thruster_calc`. -/
structure LateralOutput where
  fr : ℚ
  fl : ℚ
  rr : ℚ
  rl : ℚ
deriving DecidableEq

/-- Model of `lateral_thruster_calc(x, y, r)` from `thruster_pwm.py`:
contribution lists `x_contrib = [x, -x, -x, x]`, `y_contrib = [y, y, y, y]`,
`r_contrib = [r, -r, r, -r]`, summed positionally into `fr, fl, rr, rl`, then
each divided by `normalization_factor = max(abs(fr), abs(fl), abs(rr), abs(rl), 1)`. -/
def lateral_thruster_calc (x y r : ℚ) : LateralOutput :=
  let x_contrib : List ℚ := [x, -x, -x, x]
  let y_contrib : List ℚ := [y, y, y, y]
  let r_contrib : List ℚ := [r, -r, r, -r]
  let fr := x_contrib[0]! + y_contrib[0]! + r_contrib[0]!
  let fl := x_contrib[1]! + y_contrib[1]! + r_contrib[1]!
  let rr := x_contrib[2]! + y_contrib[2]! + r_contrib[2]!
  let rl := x_contrib[3]! + y_contrib[3]! + r_contrib[3]!
  let normalization_factor := max (max (max (max |fr| |fl|) |rr|) |rl|) 1
  { fr := fr / normalization_factor
    fl := fl / normalization_factor
    rr := rr / normalization_factor
    rl := rl / normalization_factor }

/-- The two entries of the dict returned by `vertical_pwm_calc`. -/
structure VerticalOutput where
  fv : ℚ
  rv : ℚ
deriving DecidableEq

/-- Model of `vertical_pwm_calc(z, pitch)` from `thruster_pwm.py`:
`fv = z - pitch`, `rv = z + pitch`, each divided by
`normalization_divisor = max(abs(fv), abs(rv), 1)`. -/
def vertical_pwm_calc (z pitch : ℚ) : VerticalOutput :=
  let fv := z - pitch
  let rv := z + pitch
  let normalization_divisor := max (max |fv| |rv|) 1
  { fv := fv / normalization_divisor
    rv := rv / normalization_divisor }

/-- Model of `map_ranges(x, from_range, to_range)` from `controller.py`:
`slope = delta_y / delta_x` followed by `slope * (x - from_range[0]) + to_range[0]`.
Python float division raises `ZeroDivisionError` when `delta_x` is zero; the
source performs the division unguarded, so the model returns that error. -/
def map_ranges (x : ℚ) (from_range to_range : ℚ × ℚ) : Except PyError ℚ :=
  let delta_y := to_range.2 - to_range.1
  let delta_x := from_range.2 - from_range.1
  if delta_x = 0 then .error .zeroDivisionError
  else .ok (delta_y / delta_x * (x - from_range.1) + to_range.1)

/-- Model of `squeeze(x, _min, _max, deadband)` from `controller.py` (the source
defaults `deadband` to `0.1`): clamp `x` into `[_min, _max]`, then return `0`
unless the clamped magnitude strictly exceeds the deadband. -/
def squeeze (x _min _max deadband : ℚ) : ℚ :=
  let x := min (max x _min) _max
  if deadband < |x| then x else 0

/-- One axis of `Controller.get` from `controller.py`: subtract the calibrated
center, remap through `map_ranges(·, range, (-1.0, 1.0))` with no guard for a
degenerate range, then `squeeze(·, -1.0, 1.0, 0.15)`. -/
def controller_get_axis (raw center : ℚ) (range : ℚ × ℚ) : Except PyError ℚ := do
  let v := raw - center
  let m ← map_ranges v range (-1, 1)
  pure (squeeze m (-1) 1 (15 / 100))

/-- Model of `combine_triggers(trigger_1, trigger_2)` from `controller.py`. -/
def combine_triggers (trigger_1 trigger_2 : ℚ) : ℚ :=
  (trigger_2 + 1) / 2 - (trigger_1 + 1) / 2

/-! ### Persistence layer of `thruster_pwm.py`

`get_settings` and `FrameThrusters.save_settings` are modelled on file
CONTENTS: a file is `none` (missing) or `some lines`, where `lines` is the
list `readlines()` returns, trailing newlines included. -/

/-- Whitespace characters stripped by Python `float()` (the forms occurring in
this program's files). -/
def pyIsSpace (c : Char) : Bool :=
  c == ' ' || c == '\n' || c == '\t' || c == '\r'

/-- Python `str.strip()` as performed by `float()`: drop leading and trailing
whitespace. -/
def pyStrip (s : String) : String :=
  String.mk (((s.data.dropWhile pyIsSpace).reverse.dropWhile pyIsSpace).reverse)

/-- Worker for `pySplit`, accumulating the current field in reverse. -/
def pySplitAux (sep : Char) : List Char → List Char → List String
  | [], acc => [String.mk acc.reverse]
  | c :: rest, acc =>
    if c = sep then String.mk acc.reverse :: pySplitAux sep rest []
    else pySplitAux sep rest (c :: acc)

/-- Python `str.split(sep)` for a one-character separator (the `line.split(":")`
calls of `get_settings`). -/
def pySplit (s : String) (sep : Char) : List String :=
  pySplitAux sep s.data []

/-- Python `str.lower()`. -/
def pyToLower (s : String) : String :=
  String.mk (s.data.map Char.toLower)

/-- Decimal value of a digit character, `none` for a non-digit. -/
def digitVal? (c : Char) : Option ℕ :=
  if c = '0' then some 0
  else if c = '1' then some 1
  else if c = '2' then some 2
  else if c = '3' then some 3
  else if c = '4' then some 4
  else if c = '5' then some 5
  else if c = '6' then some 6
  else if c = '7' then some 7
  else if c = '8' then some 8
  else if c = '9' then some 9
  else none

/-- Accumulate the decimal value of a digit string. -/
def decDigitsAux : List Char → ℕ → Option ℕ
  | [], acc => some acc
  | c :: rest, acc =>
    match digitVal? c with
    | some d => decDigitsAux rest (acc * 10 + d)
    | none => none

/-- Decimal value of a nonempty digit string, `none` otherwise. -/
def decDigits : List Char → Option ℕ
  | [] => none
  | cs => decDigitsAux cs 0

/-- Strip one optional leading sign, returning (is-negative, remaining chars). -/
def pySignSplit : List Char → Bool × List Char
  | [] => (false, [])
  | c :: rest =>
    if c = '-' then (true, rest)
    else if c = '+' then (false, rest)
    else (false, c :: rest)

/-- Digit-level result of parsing a float literal:
(negative?, integer part, fraction digits value, fraction digit count). -/
def pyFloatParts (s : String) : Option (Bool × ℕ × ℕ × ℕ) :=
  let sc := pySignSplit (pyStrip s).data
  match pySplit (String.mk sc.2) '.' with
  | [a] => (decDigits a.data).map (fun n => (sc.1, n, 0, 0))
  | [a, b] =>
    match a.data, b.data with
    | [], [] => none
    | [], bs => (decDigits bs).map (fun fb => (sc.1, 0, fb, bs.length))
    | as, [] => (decDigits as).map (fun n => (sc.1, n, 0, 0))
    | as, bs =>
      match decDigits as, decDigits bs with
      | some n, some fb => some (sc.1, n, fb, bs.length)
      | _, _ => none
  | _ => none

/-- Model of Python `float(str)` for plain decimal literals (optional sign,
digits, optional fraction, surrounding whitespace ignored) — the only float
syntax this program ever writes into or reads from its profile files.
`none` models a `ValueError`. -/
def pyFloat (s : String) : Option ℚ :=
  (pyFloatParts s).map (fun p =>
    let mag : ℚ := (p.2.1 : ℚ) + (p.2.2.1 : ℚ) / 10 ^ p.2.2.2
    if p.1 then -mag else mag)

/-- Model of `is_bool(string)` from `thruster_pwm.py`: permissive word lists,
`None` when the string is in neither list. -/
def is_bool (s : String) : Option Bool :=
  let positive_answers := ["ok", "okay", "yes", "y", "sure", "1", "true",
    "affirmative", "alright", "t", "yeah", "yup", "ye", "yea"]
  let negative_answers := ["no", "nope", "negative", "nein", "0",
    "n", "false", "nah", "nay", "negatory"]
  if pyToLower s ∈ positive_answers then some true
  else if pyToLower s ∈ negative_answers then some false
  else none

/-- Decimal digit character for a value below 10. -/
def digitChar (n : ℕ) : Char :=
  if n = 0 then '0'
  else if n = 1 then '1'
  else if n = 2 then '2'
  else if n = 3 then '3'
  else if n = 4 then '4'
  else if n = 5 then '5'
  else if n = 6 then '6'
  else if n = 7 then '7'
  else if n = 8 then '8'
  else '9'

/-- Fuel-based decimal rendering of a natural number (most significant digit
first; the fuel always suffices because `natStr` passes `n + 1`). -/
def natStrAux : ℕ → ℕ → List Char → List Char
  | 0, _, acc => acc
  | _ + 1, 0, acc => acc
  | fuel + 1, n + 1, acc =>
    natStrAux fuel ((n + 1) / 10) (digitChar ((n + 1) % 10) :: acc)

/-- Decimal rendering of a natural number. -/
def natStr (n : ℕ) : String :=
  if n = 0 then "0" else String.mk (natStrAux (n + 1) n [])

/-- Python `str` of an int, as interpolated for `polarity_mask` in
`save_settings`'s f-strings. -/
def pyIntStr : ℤ → String
  | .ofNat n => natStr n
  | .negSucc n => "-" ++ natStr (n + 1)

/-- Fractional decimal digits of `q ∈ [0, 1)`, fuel-bounded. -/
def fracDigitsAux (fuel : ℕ) (q : ℚ) : List Char :=
  if q = 0 then []
  else
    match fuel with
    | 0 => []
    | f + 1 => digitChar ⌊q * 10⌋.toNat :: fracDigitsAux f (q * 10 - ⌊q * 10⌋)

/-- Python `str(float)` modelled for floats with a terminating decimal
expansion — the only multiplier values this program writes.  Renders
`intpart.fracdigits`, with fractional part `0` for integral values, matching
for example `str(1.0) == "1.0"` and `str(0.5) == "0.5"`. -/
def pyFloatStr (q : ℚ) : String :=
  let mag := |q|
  let intPart := natStr ⌊mag⌋.toNat
  let fracChars := fracDigitsAux 40 (mag - ⌊mag⌋)
  let frac := if fracChars = [] then "0" else String.mk fracChars
  (if q < 0 then "-" else "") ++ intPart ++ "." ++ frac

/-- A value of the Python `settings_dict`: the thruster-file phase stores the
list `[is_bool(...), float(...)]`, the frame-file phase stores a bare float
under the same dict (Python is dynamically typed; the model tags the two
shapes). -/
inductive SettingValue where
  | thr (rev : Option Bool) (mult : ℚ)
  | num (v : ℚ)
deriving DecidableEq

/-- `dict[k] = v`: overwrite an existing key in place or append, preserving
insertion order as Python dicts do. -/
def dictSet : List (String × SettingValue) → String → SettingValue →
    List (String × SettingValue)
  | [], k, v => [(k, v)]
  | (k', v') :: rest, k, v =>
    if k' = k then (k, v) :: rest else (k', v') :: dictSet rest k v

/-- `dict[k]` lookup, `none` modelling a `KeyError`. -/
def dictGet? : List (String × SettingValue) → String → Option SettingValue
  | [], _ => none
  | (k', v') :: rest, k => if k' = k then some v' else dictGet? rest k

/-- The default thruster-profile lines `get_settings` writes when the file is
missing or shorter than six lines (`f"{key}:{value[0]}:{value[1]}"` renders
`False` and `1.0`). -/
def default_thruster_lines : List String :=
  ["fr:False:1.0\n", "fl:False:1.0\n", "rr:False:1.0\n",
   "rl:False:1.0\n", "fv:False:1.0\n", "rv:False:1.0\n"]

/-- The default frame-profile line `get_settings` writes when the file is
missing or empty. -/
def default_frame_lines : List String :=
  ["multiplier:1.0\n"]

/-- One line of the thruster-file parsing loop of `get_settings`:
`line = line.split(":")`, then
`settings_dict[line[0]] = [is_bool(line[1]), float(line[2])]`.
A field index past the end raises `IndexError`; a bad float raises
`ValueError`. -/
def parseThrusterLine (d : List (String × SettingValue)) (line : String) :
    Except PyError (List (String × SettingValue)) :=
  let fields := pySplit line ':'
  match fields.get? 0, fields.get? 1, fields.get? 2 with
  | some f0, some f1, some f2 =>
    match pyFloat f2 with
    | some v => .ok (dictSet d f0 (.thr (is_bool f1) v))
    | none => .error .valueError
  | _, _, _ => .error .indexError

/-- One line of the frame-file parsing loop of `get_settings`:
`line = line.split(":")`, then `settings_dict[line[0]] = float(line[1])`. -/
def parseFrameLine (d : List (String × SettingValue)) (line : String) :
    Except PyError (List (String × SettingValue)) :=
  let fields := pySplit line ':'
  match fields.get? 0, fields.get? 1 with
  | some f0, some f1 =>
    match pyFloat f1 with
    | some v => .ok (dictSet d f0 (.num v))
    | none => .error .valueError
  | _, _ => .error .indexError

/-- Fold a per-line parser over a file's lines, stopping at the first raised
exception. -/
def parseLines
    (step : List (String × SettingValue) → String →
      Except PyError (List (String × SettingValue))) :
    List (String × SettingValue) → List String →
      Except PyError (List (String × SettingValue))
  | d, [] => .ok d
  | d, line :: rest =>
    match step d line with
    | .ok d' => parseLines step d' rest
    | .error e => .error e

/-- Model of `get_settings(path)` over file contents.  A missing
(`FileNotFoundError`) or too-short file is replaced by the default lines and
re-read; the effective lines of both files are then parsed into one dict.
Returns the dict together with the final contents of the thruster and frame
files, capturing the default write-back. -/
def get_settings (thruster_file frame_file : Option (List String)) :
    Except PyError
      (List (String × SettingValue) × List String × List String) :=
  let thruster_lines :=
    match thruster_file with
    | none => default_thruster_lines
    | some ls => if ls.length < 6 then default_thruster_lines else ls
  match parseLines parseThrusterLine [] thruster_lines with
  | .error e => .error e
  | .ok d =>
    let frame_lines :=
      match frame_file with
      | none => default_frame_lines
      | some ls => if ls.length < 1 then default_frame_lines else ls
    match parseLines parseFrameLine d frame_lines with
    | .error e => .error e
    | .ok d' => .ok (d', thruster_lines, frame_lines)

/-- The six thrusters owned by `FrameThrusters`, plus `overall_multiplier`.
The multiplier field keeps the raw dict value (`settings["multiplier"]` is
stored without inspection in the source). -/
structure FrameState where
  fr : ThrusterState
  fl : ThrusterState
  rr : ThrusterState
  rl : ThrusterState
  fv : ThrusterState
  rv : ThrusterState
  overall_multiplier : SettingValue
deriving DecidableEq

/-- `Thruster(settings[key][0], settings[key][1])` in `FrameThrusters.__init__`:
a bare float stored under the key is not subscriptable (`TypeError`); a missing
key raises `KeyError`. -/
def thrusterFromSettings (d : List (String × SettingValue)) (key : String) :
    Except PyError ThrusterState :=
  match dictGet? d key with
  | some (.thr rev mult) => .ok (Thruster.init rev mult none)
  | some (.num _) => .error .typeError
  | none => .error .keyError

/-- Model of `FrameThrusters.__init__` after `get_settings` has produced the
settings dict: build the six thrusters, then read `settings["multiplier"]`. -/
def frame_init_from (d : List (String × SettingValue)) :
    Except PyError FrameState :=
  match thrusterFromSettings d "fr" with
  | .error e => .error e
  | .ok fr =>
    match thrusterFromSettings d "fl" with
    | .error e => .error e
    | .ok fl =>
      match thrusterFromSettings d "rr" with
      | .error e => .error e
      | .ok rr =>
        match thrusterFromSettings d "rl" with
        | .error e => .error e
        | .ok rl =>
          match thrusterFromSettings d "fv" with
          | .error e => .error e
          | .ok fv =>
            match thrusterFromSettings d "rv" with
            | .error e => .error e
            | .ok rv =>
              match dictGet? d "multiplier" with
              | some m =>
                .ok { fr := fr, fl := fl, rr := rr, rl := rl, fv := fv, rv := rv,
                      overall_multiplier := m }
              | none => .error .keyError

/-- One saved line `f"{name}:{polarity_mask}:{multiplier}\n"` of
`save_settings`. -/
def thrusterLine (name : String) (t : ThrusterState) : String :=
  name ++ ":" ++ pyIntStr t.polarity_mask ++ ":" ++ pyFloatStr t.multiplier ++ "\n"

/-- Model of `FrameThrusters.save_settings`: the `for _ in range(2)` loop
writes the six thruster lines to `thruster_profile.fngr` and then writes the
SAME six thruster lines to `frame_profile.fngr` (the loop changes only the
path, not what is written), so the frame multiplier is never saved.  Returns
(thruster file contents, frame file contents). -/
def save_settings (f : FrameState) : List String × List String :=
  let lines := [thrusterLine "fr" f.fr, thrusterLine "fl" f.fl,
    thrusterLine "rr" f.rr, thrusterLine "rl" f.rl,
    thrusterLine "fv" f.fv, thrusterLine "rv" f.rv]
  (lines, lines)

/-- Save a frame's settings and construct a new `FrameThrusters` from the
files just written (the save-then-load round trip of the spec). -/
def save_load_roundtrip (f : FrameState) : Except PyError FrameState :=
  let files := save_settings f
  match get_settings (some files.1) (some files.2) with
  | .error e => .error e
  | .ok loaded => frame_init_from loaded.1

/-- A concrete non-default profile: front-right thruster reversed, every
multiplier 1. -/
def sampleFrame : FrameState :=
  { fr := Thruster.init (some true) 1 none
    fl := Thruster.init (some false) 1 none
    rr := Thruster.init (some false) 1 none
    rl := Thruster.init (some false) 1 none
    fv := Thruster.init (some false) 1 none
    rv := Thruster.init (some false) 1 none
    overall_multiplier := .num 1 }

/-- The settings dict produced by parsing the default profile files. -/
def defaultSettingsDict : List (String × SettingValue) :=
  [("fr", .thr (some false) 1), ("fl", .thr (some false) 1),
   ("rr", .thr (some false) 1), ("rl", .thr (some false) 1),
   ("fv", .thr (some false) 1), ("rv", .thr (some false) 1),
   ("multiplier", .num 1)]

/-- The lateral mix exactly as the specification's matrix states it
(FR = -x + y + r, FL = +x + y - r, RR = -x + y + r, RL = +x + y - r, each
divided by `max(|FR|, |FL|, |RR|, |RL|, 1)`).  Written from the spec's words,
NOT from the source, to be compared against `lateral_thruster_calc`. -/
def lateral_mix_spec_matrix (x y r : ℚ) : LateralOutput :=
  let fr := -x + y + r
  let fl := x + y - r
  let rr := -x + y + r
  let rl := x + y - r
  let n := max (max (max (max |fr| |fl|) |rr|) |rl|) 1
  { fr := fr / n, fl := fl / n, rr := rr / n, rl := rl / n }

/-! ## Evaluation lemmas

Pure string computations are settled by kernel evaluation (`decide`); anything
involving `ℚ` goes through `simp`/`norm_num`, since rational normalization does
not reduce definitionally. -/

lemma pyFloatParts_one_nl : pyFloatParts "1.0\n" = some (false, 1, 0, 1) := by decide

lemma pyFloat_one_nl : pyFloat "1.0\n" = some 1 := by
  simp [pyFloat, pyFloatParts_one_nl]

lemma pyFloatParts_neg_one : pyFloatParts "-1" = some (true, 1, 0, 0) := by decide

lemma pyFloat_neg_one : pyFloat "-1" = some (-1) := by
  simp [pyFloat, pyFloatParts_neg_one]

lemma pyFloatParts_one : pyFloatParts "1" = some (false, 1, 0, 0) := by decide

lemma pyFloat_one : pyFloat "1" = some 1 := by
  simp [pyFloat, pyFloatParts_one]

lemma is_bool_False : is_bool "False" = some false := by decide

lemma is_bool_one : is_bool "1" = some true := by decide

lemma is_bool_neg_one : is_bool "-1" = none := by decide

lemma split_default_fr : pySplit "fr:False:1.0\n" ':' = ["fr", "False", "1.0\n"] := by decide

lemma split_default_fl : pySplit "fl:False:1.0\n" ':' = ["fl", "False", "1.0\n"] := by decide

lemma split_default_rr : pySplit "rr:False:1.0\n" ':' = ["rr", "False", "1.0\n"] := by decide

lemma split_default_rl : pySplit "rl:False:1.0\n" ':' = ["rl", "False", "1.0\n"] := by decide

lemma split_default_fv : pySplit "fv:False:1.0\n" ':' = ["fv", "False", "1.0\n"] := by decide

lemma split_default_rv : pySplit "rv:False:1.0\n" ':' = ["rv", "False", "1.0\n"] := by decide

lemma split_default_mult : pySplit "multiplier:1.0\n" ':' = ["multiplier", "1.0\n"] := by decide

lemma split_saved_fr : pySplit "fr:-1:1.0\n" ':' = ["fr", "-1", "1.0\n"] := by decide

lemma split_saved_fl : pySplit "fl:1:1.0\n" ':' = ["fl", "1", "1.0\n"] := by decide

lemma split_saved_rr : pySplit "rr:1:1.0\n" ':' = ["rr", "1", "1.0\n"] := by decide

lemma split_saved_rl : pySplit "rl:1:1.0\n" ':' = ["rl", "1", "1.0\n"] := by decide

lemma split_saved_fv : pySplit "fv:1:1.0\n" ':' = ["fv", "1", "1.0\n"] := by decide

lemma split_saved_rv : pySplit "rv:1:1.0\n" ':' = ["rv", "1", "1.0\n"] := by decide

lemma split_garbage : pySplit "garbage\n" ':' = ["garbage\n"] := by decide

lemma split_badfloat : pySplit "fr:False:junk\n" ':' = ["fr", "False", "junk\n"] := by decide

lemma pyFloatParts_junk : pyFloatParts "junk\n" = none := by decide

lemma pyFloat_junk : pyFloat "junk\n" = none := by
  simp [pyFloat, pyFloatParts_junk]

lemma natStr_one : natStr 1 = "1" := by decide

lemma pyIntStr_one : pyIntStr 1 = "1" := by decide

lemma pyIntStr_neg_one : pyIntStr (-1) = "-1" := by decide

lemma fracDigitsAux_zero (fuel : ℕ) : fracDigitsAux fuel 0 = [] := by
  cases fuel <;> simp [fracDigitsAux]

lemma pyFloatStr_one : pyFloatStr 1 = "1.0" := by
  have h2 : ⌊(1 : ℚ)⌋ = 1 := Int.floor_one
  have h3 : ¬ ((1 : ℚ) < 0) := by norm_num
  simp [pyFloatStr, abs_one, h2, fracDigitsAux_zero, natStr_one, h3]

lemma parse_default_thrusters :
    parseLines parseThrusterLine [] default_thruster_lines =
      .ok [("fr", .thr (some false) 1), ("fl", .thr (some false) 1),
           ("rr", .thr (some false) 1), ("rl", .thr (some false) 1),
           ("fv", .thr (some false) 1), ("rv", .thr (some false) 1)] := by
  simp [parseLines, default_thruster_lines, parseThrusterLine,
    split_default_fr, split_default_fl, split_default_rr,
    split_default_rl, split_default_fv, split_default_rv,
    is_bool_False, pyFloat_one_nl, dictSet]

lemma get_settings_defaults :
    get_settings none none =
      .ok (defaultSettingsDict, default_thruster_lines, default_frame_lines) := by
  simp only [get_settings]
  rw [parse_default_thrusters]
  simp [parseLines, default_frame_lines, parseFrameLine, split_default_mult,
    pyFloat_one_nl, dictSet, defaultSettingsDict]

lemma get_settings_short (ls : List String) (h : ls.length < 6) :
    get_settings (some ls) none =
      .ok (defaultSettingsDict, default_thruster_lines, default_frame_lines) := by
  simp only [get_settings, if_pos h]
  rw [parse_default_thrusters]
  simp [parseLines, default_frame_lines, parseFrameLine, split_default_mult,
    pyFloat_one_nl, dictSet, defaultSettingsDict]

lemma get_settings_none_short_frame :
    get_settings none (some []) =
      .ok (defaultSettingsDict, default_thruster_lines, default_frame_lines) := by
  simp only [get_settings]
  rw [parse_default_thrusters]
  simp [parseLines, default_frame_lines, parseFrameLine, split_default_mult,
    pyFloat_one_nl, dictSet, defaultSettingsDict]

lemma get_settings_short_short_frame (ls : List String) (h : ls.length < 6) :
    get_settings (some ls) (some []) =
      .ok (defaultSettingsDict, default_thruster_lines, default_frame_lines) := by
  simp only [get_settings, if_pos h]
  rw [parse_default_thrusters]
  simp [parseLines, default_frame_lines, parseFrameLine, split_default_mult,
    pyFloat_one_nl, dictSet, defaultSettingsDict]

lemma get_settings_garbage :
    get_settings (some (List.replicate 6 "garbage\n")) (some ["multiplier:1.0\n"]) =
      .error .indexError := by
  simp [get_settings, List.replicate, parseLines, parseThrusterLine, split_garbage]

lemma get_settings_badfloat :
    get_settings (some (List.replicate 6 "fr:False:junk\n")) none =
      .error .valueError := by
  simp [get_settings, List.replicate, parseLines, parseThrusterLine,
    split_badfloat, pyFloat_junk]

lemma thrusterLine_rev :
    thrusterLine "fr" (Thruster.init (some true) 1 none) = "fr:-1:1.0\n" := by
  have hm : min (max (1 : ℚ) 0) 1 = 1 := by norm_num
  simp [thrusterLine, Thruster.init, hm, pyIntStr_neg_one, pyFloatStr_one]

lemma thrusterLine_fwd_fl :
    thrusterLine "fl" (Thruster.init (some false) 1 none) = "fl:1:1.0\n" := by
  have hm : min (max (1 : ℚ) 0) 1 = 1 := by norm_num
  simp [thrusterLine, Thruster.init, hm, pyIntStr_one, pyFloatStr_one]

lemma thrusterLine_fwd_rr :
    thrusterLine "rr" (Thruster.init (some false) 1 none) = "rr:1:1.0\n" := by
  have hm : min (max (1 : ℚ) 0) 1 = 1 := by norm_num
  simp [thrusterLine, Thruster.init, hm, pyIntStr_one, pyFloatStr_one]

lemma thrusterLine_fwd_rl :
    thrusterLine "rl" (Thruster.init (some false) 1 none) = "rl:1:1.0\n" := by
  have hm : min (max (1 : ℚ) 0) 1 = 1 := by norm_num
  simp [thrusterLine, Thruster.init, hm, pyIntStr_one, pyFloatStr_one]

lemma thrusterLine_fwd_fv :
    thrusterLine "fv" (Thruster.init (some false) 1 none) = "fv:1:1.0\n" := by
  have hm : min (max (1 : ℚ) 0) 1 = 1 := by norm_num
  simp [thrusterLine, Thruster.init, hm, pyIntStr_one, pyFloatStr_one]

lemma thrusterLine_fwd_rv :
    thrusterLine "rv" (Thruster.init (some false) 1 none) = "rv:1:1.0\n" := by
  have hm : min (max (1 : ℚ) 0) 1 = 1 := by norm_num
  simp [thrusterLine, Thruster.init, hm, pyIntStr_one, pyFloatStr_one]

lemma save_sample :
    save_settings sampleFrame =
      (["fr:-1:1.0\n", "fl:1:1.0\n", "rr:1:1.0\n", "rl:1:1.0\n",
        "fv:1:1.0\n", "rv:1:1.0\n"],
       ["fr:-1:1.0\n", "fl:1:1.0\n", "rr:1:1.0\n", "rl:1:1.0\n",
        "fv:1:1.0\n", "rv:1:1.0\n"]) := by
  simp only [save_settings, sampleFrame]
  rw [thrusterLine_rev, thrusterLine_fwd_fl, thrusterLine_fwd_rr,
    thrusterLine_fwd_rl, thrusterLine_fwd_fv, thrusterLine_fwd_rv]

lemma parse_saved_thrusters :
    parseLines parseThrusterLine []
      ["fr:-1:1.0\n", "fl:1:1.0\n", "rr:1:1.0\n", "rl:1:1.0\n",
       "fv:1:1.0\n", "rv:1:1.0\n"] =
      .ok [("fr", .thr none 1), ("fl", .thr (some true) 1), ("rr", .thr (some true) 1),
           ("rl", .thr (some true) 1), ("fv", .thr (some true) 1),
           ("rv", .thr (some true) 1)] := by
  simp [parseLines, parseThrusterLine,
    split_saved_fr, split_saved_fl, split_saved_rr, split_saved_rl,
    split_saved_fv, split_saved_rv, is_bool_neg_one, is_bool_one,
    pyFloat_one_nl, dictSet]

lemma parse_saved_frame :
    parseLines parseFrameLine
      [("fr", .thr none 1), ("fl", .thr (some true) 1), ("rr", .thr (some true) 1),
       ("rl", .thr (some true) 1), ("fv", .thr (some true) 1),
       ("rv", .thr (some true) 1)]
      ["fr:-1:1.0\n", "fl:1:1.0\n", "rr:1:1.0\n", "rl:1:1.0\n",
       "fv:1:1.0\n", "rv:1:1.0\n"] =
      .ok [("fr", .num (-1)), ("fl", .num 1), ("rr", .num 1),
           ("rl", .num 1), ("fv", .num 1), ("rv", .num 1)] := by
  simp [parseLines, parseFrameLine,
    split_saved_fr, split_saved_fl, split_saved_rr, split_saved_rl,
    split_saved_fv, split_saved_rv, pyFloat_neg_one, pyFloat_one, dictSet]

lemma get_settings_saved :
    get_settings
      (some ["fr:-1:1.0\n", "fl:1:1.0\n", "rr:1:1.0\n", "rl:1:1.0\n",
             "fv:1:1.0\n", "rv:1:1.0\n"])
      (some ["fr:-1:1.0\n", "fl:1:1.0\n", "rr:1:1.0\n", "rl:1:1.0\n",
             "fv:1:1.0\n", "rv:1:1.0\n"]) =
      .ok ([("fr", .num (-1)), ("fl", .num 1), ("rr", .num 1),
            ("rl", .num 1), ("fv", .num 1), ("rv", .num 1)],
           ["fr:-1:1.0\n", "fl:1:1.0\n", "rr:1:1.0\n", "rl:1:1.0\n",
            "fv:1:1.0\n", "rv:1:1.0\n"],
           ["fr:-1:1.0\n", "fl:1:1.0\n", "rr:1:1.0\n", "rl:1:1.0\n",
            "fv:1:1.0\n", "rv:1:1.0\n"]) := by
  simp only [get_settings, List.length, Nat.lt_irrefl, if_false]
  rw [parse_saved_thrusters]
  norm_num
  rw [parse_saved_frame]

lemma dictGet_saved_fr :
    dictGet? [("fr", .num (-1)), ("fl", .num 1), ("rr", .num 1),
      ("rl", .num 1), ("fv", .num 1), ("rv", .num 1)] "fr" = some (.num (-1)) := by
  simp [dictGet?]

set_option maxHeartbeats 2000000 in
lemma frame_init_saved :
    frame_init_from [("fr", .num (-1)), ("fl", .num 1), ("rr", .num 1),
      ("rl", .num 1), ("fv", .num 1), ("rv", .num 1)] = .error .typeError := by
  rw [frame_init_from]
  rw [show thrusterFromSettings [("fr", .num (-1)), ("fl", .num 1), ("rr", .num 1),
      ("rl", .num 1), ("fv", .num 1), ("rv", .num 1)] "fr" = .error .typeError from by
    rw [thrusterFromSettings, dictGet_saved_fr]]

set_option maxHeartbeats 2000000 in
lemma roundtrip_sample :
    save_load_roundtrip sampleFrame = .error .typeError := by
  simp only [save_load_roundtrip, save_sample]
  rw [get_settings_saved]
  exact frame_init_saved

/-! ## Allocator lemmas -/

lemma lateral_thruster_calc_def (x y r : ℚ) :
    lateral_thruster_calc x y r =
      { fr := (x + y + r) /
          max (max (max (max |x + y + r| |-x + y - r|) |-x + y + r|) |x + y - r|) 1
        fl := (-x + y - r) /
          max (max (max (max |x + y + r| |-x + y - r|) |-x + y + r|) |x + y - r|) 1
        rr := (-x + y + r) /
          max (max (max (max |x + y + r| |-x + y - r|) |-x + y + r|) |x + y - r|) 1
        rl := (x + y - r) /
          max (max (max (max |x + y + r| |-x + y - r|) |-x + y + r|) |x + y - r|) 1 } := by
  simp [lateral_thruster_calc, sub_eq_add_neg]

lemma vertical_pwm_calc_def (z p : ℚ) :
    vertical_pwm_calc z p =
      { fv := (z - p) / max (max |z - p| |z + p|) 1
        rv := (z + p) / max (max |z - p| |z + p|) 1 } := by
  simp [vertical_pwm_calc]

lemma div_bound (a d : ℚ) (h1 : |a| ≤ d) (h2 : 1 ≤ d) : -1 ≤ a / d ∧ a / d ≤ 1 := by
  have hd : 0 < d := lt_of_lt_of_le one_pos h2
  have habs : |a / d| ≤ 1 := by
    rw [abs_div, abs_of_pos hd]
    exact (div_le_one hd).mpr h1
  exact abs_le.mp habs

lemma lateral_bounds (x y r : ℚ) :
    (-1 ≤ (lateral_thruster_calc x y r).fr ∧ (lateral_thruster_calc x y r).fr ≤ 1) ∧
    (-1 ≤ (lateral_thruster_calc x y r).fl ∧ (lateral_thruster_calc x y r).fl ≤ 1) ∧
    (-1 ≤ (lateral_thruster_calc x y r).rr ∧ (lateral_thruster_calc x y r).rr ≤ 1) ∧
    (-1 ≤ (lateral_thruster_calc x y r).rl ∧ (lateral_thruster_calc x y r).rl ≤ 1) := by
  rw [lateral_thruster_calc_def]
  refine ⟨div_bound _ _ ?_ (le_max_right _ _), div_bound _ _ ?_ (le_max_right _ _),
    div_bound _ _ ?_ (le_max_right _ _), div_bound _ _ ?_ (le_max_right _ _)⟩
  · exact le_max_of_le_left (le_max_of_le_left (le_max_of_le_left (le_max_left _ _)))
  · exact le_max_of_le_left (le_max_of_le_left (le_max_of_le_left (le_max_right _ _)))
  · exact le_max_of_le_left (le_max_of_le_left (le_max_right _ _))
  · exact le_max_of_le_left (le_max_right _ _)

lemma vertical_bounds (z p : ℚ) :
    (-1 ≤ (vertical_pwm_calc z p).fv ∧ (vertical_pwm_calc z p).fv ≤ 1) ∧
    (-1 ≤ (vertical_pwm_calc z p).rv ∧ (vertical_pwm_calc z p).rv ≤ 1) := by
  rw [vertical_pwm_calc_def]
  exact ⟨div_bound _ _ (le_max_of_le_left (le_max_left _ _)) (le_max_right _ _),
    div_bound _ _ (le_max_of_le_left (le_max_right _ _)) (le_max_right _ _)⟩

/-! ## Claim theorems -/

/-- C1: the claim states that `set_power(p)` stores `min(max(p, -1), 1)`, so a
negative input in [-1, 0) is kept negative.  The code clamps to `[0, 1]`
instead: at input `-1/2` the stored power is `0`, while the claimed clamp
would store `-1/2`.  The claim matches the method's own docstring ("between
-1.0 and 1.0") and `thrust_calc`'s negative allocator outputs; the clamp
floor of `0` is the slip. -/
theorem c1_set_power_clamps_at_zero_not_minus_one :
    (Thruster.set_power (Thruster.init (some false) 1 none) (-(1 / 2))).power = 0 ∧
    min (max (-(1 / 2) : ℚ) (-1)) 1 = -(1 / 2) := by
  constructor
  · norm_num [Thruster.set_power, Thruster.init]
  · norm_num

/-- C2: the claim's formula has the `(effective + 1)` offset and predicts
1900, 1100, 1500 at powers 1, -1, 0 (polarity 1, multiplier 1, pulse range
(1100, 1900)); the code omits the offset and returns 1500, 700, 1100 at those
same inputs. -/
theorem c2_get_pwm_values_without_offset :
    Thruster.get_pwm
      { power := 1, polarity_mask := 1, multiplier := 1, pulse_range := (1100, 1900) }
      = 1500 ∧
    Thruster.get_pwm
      { power := -1, polarity_mask := 1, multiplier := 1, pulse_range := (1100, 1900) }
      = 700 ∧
    Thruster.get_pwm
      { power := 0, polarity_mask := 1, multiplier := 1, pulse_range := (1100, 1900) }
      = 1100 := by
  refine ⟨?_, ?_, ?_⟩ <;> norm_num [Thruster.get_pwm, pyInt]

/-- C3: a reachable state — fresh thruster, polarity reversed once, power set
to 1 by `set_power`, default pulse range (1100, 1900) — yields PWM 700,
outside the configured pulse range, so the claimed invariant fails on the
code (same missing `+ 1` offset as C2). -/
theorem c3_reachable_pwm_outside_pulse_range :
    Thruster.get_pwm (Thruster.set_power
        (Thruster.reverse_polarity (Thruster.init (some false) 1 none)).2 1) = 700 ∧
    (Thruster.set_power
        (Thruster.reverse_polarity (Thruster.init (some false) 1 none)).2 1).pulse_range
      = (1100, 1900) ∧
    ¬ (1100 ≤ (700 : ℤ) ∧ (700 : ℤ) ≤ 1900) := by
  refine ⟨?_, ?_, by norm_num⟩
  · norm_num [Thruster.get_pwm, Thruster.set_power, Thruster.reverse_polarity,
      Thruster.init, pyInt]
  · simp [Thruster.set_power, Thruster.reverse_polarity, Thruster.init]

/-- C4 counterexample: at input (x, y, r) = (1, 0, 0) the code's lateral mix
returns FR = 1, while the claim's matrix (FR = -x + y + r) yields FR = -1, so
the claim is false as stated. -/
theorem c4_lateral_matrix_counterexample :
    (lateral_thruster_calc 1 0 0).fr = 1 ∧ (lateral_mix_spec_matrix 1 0 0).fr = -1 ∧
    lateral_thruster_calc 1 0 0 ≠ lateral_mix_spec_matrix 1 0 0 := by
  have h1 : (lateral_thruster_calc 1 0 0).fr = 1 := by
    norm_num [lateral_thruster_calc]
  have h2 : (lateral_mix_spec_matrix 1 0 0).fr = -1 := by
    norm_num [lateral_mix_spec_matrix]
  refine ⟨h1, h2, fun h => ?_⟩
  rw [h, h2] at h1
  norm_num at h1

/-- C4 (amended): the code's lateral mix computes the pre-normalization values
FR = +x + y + r, FL = -x + y - r, RR = -x + y + r, RL = +x + y - r — the
x-signs of FR and FL are the opposite of the claim's — and returns each
divided by `max(|FR|, |FL|, |RR|, |RL|, 1)`. -/
theorem c4_lateral_mix_code_matrix (x y r : ℚ) :
    lateral_thruster_calc x y r =
      { fr := (x + y + r) /
          max (max (max (max |x + y + r| |-x + y - r|) |-x + y + r|) |x + y - r|) 1
        fl := (-x + y - r) /
          max (max (max (max |x + y + r| |-x + y - r|) |-x + y + r|) |x + y - r|) 1
        rr := (-x + y + r) /
          max (max (max (max |x + y + r| |-x + y - r|) |-x + y + r|) |x + y - r|) 1
        rl := (x + y - r) /
          max (max (max (max |x + y + r| |-x + y - r|) |-x + y + r|) |x + y - r|) 1 } :=
  lateral_thruster_calc_def x y r

/-- C5: save-then-load does not round-trip.  For a concrete non-default
profile (front-right thruster reversed, every multiplier 1) `save_settings`
writes the six thruster lines to BOTH profile files, so reloading overwrites
every thruster entry with a bare float, never defines the `multiplier` key,
and `FrameThrusters.__init__` raises `TypeError` instead of restoring the
settings. -/
theorem c5_save_load_roundtrip_raises :
    save_load_roundtrip sampleFrame = .error .typeError :=
  roundtrip_sample

/-- C6 counterexample: with the zero-width calibration range (0, 0) an axis of
`Controller.get` raises `ZeroDivisionError` instead of falling back to the
identity mapping (which would return `squeeze(1/2, -1, 1, 0.15)`). -/
theorem c6_zero_width_axis_counterexample :
    controller_get_axis (1 / 2) 0 (0, 0) = .error .zeroDivisionError ∧
    controller_get_axis (1 / 2) 0 (0, 0) ≠ .ok (squeeze (1 / 2) (-1) 1 (15 / 100)) := by
  have h : controller_get_axis (1 / 2) 0 (0, 0) = .error .zeroDivisionError := by
    simp [controller_get_axis, map_ranges]
  rw [h]
  simp

/-- C6 (amended): `map_ranges` divides unguarded, so any zero-width
`from_range` raises `ZeroDivisionError`, and `Controller.get` applies it with
no identity fallback, so a zero-width calibration axis propagates the
division error. -/
theorem c6_zero_width_axis_raises :
    (∀ x lo t1 t2 : ℚ, map_ranges x (lo, lo) (t1, t2) = .error .zeroDivisionError) ∧
    (∀ raw center lo : ℚ,
      controller_get_axis raw center (lo, lo) = .error .zeroDivisionError) := by
  constructor
  · intro x lo t1 t2
    simp [map_ranges]
  · intro raw center lo
    simp [controller_get_axis, map_ranges]

/-- C7 counterexample: a thruster profile of six unparsable lines (no colon)
is long enough to skip the default write-back, and parsing it raises
`IndexError` instead of yielding the documented defaults. -/
theorem c7_unparsable_profile_counterexample :
    get_settings (some (List.replicate 6 "garbage\n")) (some ["multiplier:1.0\n"]) =
      .error .indexError ∧
    get_settings (some (List.replicate 6 "garbage\n")) (some ["multiplier:1.0\n"]) ≠
      .ok (defaultSettingsDict, default_thruster_lines, ["multiplier:1.0\n"]) := by
  refine ⟨get_settings_garbage, ?_⟩
  rw [get_settings_garbage]
  simp

/-- C7 (amended): whenever the thruster record is missing or truncated (fewer
than six lines) and the frame record is missing or truncated (fewer than one
line), loading yields the documented defaults — all thrusters non-reversed
with multiplier 1.0, overall multiplier 1.0 — without raising, and the default
lines are written back to both files.  An unparsable profile with enough
lines, however, raises: IndexError for a line with too few colon-separated
fields (see the counterexample), and ValueError for a non-numeric multiplier
field, shown here on a six-line profile whose float field is `junk`. -/
theorem c7_missing_or_short_profile_defaults :
    (∀ tf ff : Option (List String),
      (tf = none ∨ ∃ ls, tf = some ls ∧ ls.length < 6) →
      (ff = none ∨ ∃ fs, ff = some fs ∧ fs.length < 1) →
      get_settings tf ff =
        .ok (defaultSettingsDict, default_thruster_lines, default_frame_lines)) ∧
    get_settings (some (List.replicate 6 "fr:False:junk\n")) none =
      .error .valueError := by
  refine ⟨?_, get_settings_badfloat⟩
  intro tf ff ht hf
  have hf' : ff = none ∨ ff = some [] := by
    rcases hf with h | ⟨fs, rfl, hlen⟩
    · exact Or.inl h
    · exact Or.inr (by rw [List.length_eq_zero.mp (Nat.lt_one_iff.mp hlen)])
  rcases ht with rfl | ⟨ls, rfl, hlen⟩ <;> rcases hf' with rfl | rfl
  · exact get_settings_defaults
  · exact get_settings_none_short_frame
  · exact get_settings_short ls hlen
  · exact get_settings_short_short_frame ls hlen

/-- Witness for C7 (amended): the truncated one-line thruster record
`["oops"]` together with the truncated empty frame record satisfies both
hypotheses and loads as the defaults. -/
theorem c7_missing_or_short_profile_defaults_witness :
    ((some ["oops"] : Option (List String)) = none ∨
      ∃ ls, (some ["oops"] : Option (List String)) = some ls ∧ ls.length < 6) ∧
    ((some [] : Option (List String)) = none ∨
      ∃ fs, (some [] : Option (List String)) = some fs ∧ fs.length < 1) ∧
    get_settings (some ["oops"]) (some []) =
      .ok (defaultSettingsDict, default_thruster_lines, default_frame_lines) :=
  ⟨Or.inr ⟨["oops"], rfl, by decide⟩, Or.inr ⟨[], rfl, by decide⟩,
   c7_missing_or_short_profile_defaults.1 (some ["oops"]) (some [])
     (Or.inr ⟨["oops"], rfl, by decide⟩) (Or.inr ⟨[], rfl, by decide⟩)⟩

/-- C8: single-axis drive preserves magnitude: for every v in [-1, 1],
placing v on exactly one of the three lateral input axes (the other two 0)
makes the maximum absolute value of the four lateral outputs equal |v|. -/
theorem c8_single_axis_preserves_magnitude (v : ℚ) (h1 : -1 ≤ v) (h2 : v ≤ 1) :
    (max (max (max |(lateral_thruster_calc v 0 0).fr| |(lateral_thruster_calc v 0 0).fl|)
        |(lateral_thruster_calc v 0 0).rr|) |(lateral_thruster_calc v 0 0).rl| = |v|) ∧
    (max (max (max |(lateral_thruster_calc 0 v 0).fr| |(lateral_thruster_calc 0 v 0).fl|)
        |(lateral_thruster_calc 0 v 0).rr|) |(lateral_thruster_calc 0 v 0).rl| = |v|) ∧
    (max (max (max |(lateral_thruster_calc 0 0 v).fr| |(lateral_thruster_calc 0 0 v).fl|)
        |(lateral_thruster_calc 0 0 v).rr|) |(lateral_thruster_calc 0 0 v).rl| = |v|) := by
  have hv : |v| ≤ 1 := abs_le.mpr ⟨h1, h2⟩
  refine ⟨?_, ?_, ?_⟩ <;>
    simp [lateral_thruster_calc, abs_neg, max_self, max_eq_right hv]

/-- Witness for C8 at v = 1/2. -/
theorem c8_single_axis_preserves_magnitude_witness :
    ((-1 : ℚ) ≤ 1 / 2 ∧ (1 / 2 : ℚ) ≤ 1) ∧
    ((max (max (max |(lateral_thruster_calc (1 / 2) 0 0).fr|
        |(lateral_thruster_calc (1 / 2) 0 0).fl|)
        |(lateral_thruster_calc (1 / 2) 0 0).rr|)
        |(lateral_thruster_calc (1 / 2) 0 0).rl| = |(1 / 2 : ℚ)|) ∧
     (max (max (max |(lateral_thruster_calc 0 (1 / 2) 0).fr|
        |(lateral_thruster_calc 0 (1 / 2) 0).fl|)
        |(lateral_thruster_calc 0 (1 / 2) 0).rr|)
        |(lateral_thruster_calc 0 (1 / 2) 0).rl| = |(1 / 2 : ℚ)|) ∧
     (max (max (max |(lateral_thruster_calc 0 0 (1 / 2)).fr|
        |(lateral_thruster_calc 0 0 (1 / 2)).fl|)
        |(lateral_thruster_calc 0 0 (1 / 2)).rr|)
        |(lateral_thruster_calc 0 0 (1 / 2)).rl| = |(1 / 2 : ℚ)|)) :=
  ⟨by norm_num,
   c8_single_axis_preserves_magnitude (1 / 2) (by norm_num) (by norm_num)⟩

/-- C9: for all inputs in [-1, 1], each of the four lateral outputs and both
vertical outputs of the allocator lies in [-1, 1]. -/
theorem c9_allocator_outputs_normalized (x y r z p : ℚ)
    (hx1 : -1 ≤ x) (hx2 : x ≤ 1) (hy1 : -1 ≤ y) (hy2 : y ≤ 1)
    (hr1 : -1 ≤ r) (hr2 : r ≤ 1) (hz1 : -1 ≤ z) (hz2 : z ≤ 1)
    (hp1 : -1 ≤ p) (hp2 : p ≤ 1) :
    (((-1 ≤ (lateral_thruster_calc x y r).fr ∧ (lateral_thruster_calc x y r).fr ≤ 1) ∧
      (-1 ≤ (lateral_thruster_calc x y r).fl ∧ (lateral_thruster_calc x y r).fl ≤ 1) ∧
      (-1 ≤ (lateral_thruster_calc x y r).rr ∧ (lateral_thruster_calc x y r).rr ≤ 1) ∧
      (-1 ≤ (lateral_thruster_calc x y r).rl ∧ (lateral_thruster_calc x y r).rl ≤ 1)) ∧
     ((-1 ≤ (vertical_pwm_calc z p).fv ∧ (vertical_pwm_calc z p).fv ≤ 1) ∧
      (-1 ≤ (vertical_pwm_calc z p).rv ∧ (vertical_pwm_calc z p).rv ≤ 1))) :=
  ⟨lateral_bounds x y r, vertical_bounds z p⟩

/-- Witness for C9 at x = y = r = z = p = 1. -/
theorem c9_allocator_outputs_normalized_witness :
    ((-1 : ℚ) ≤ 1 ∧ (1 : ℚ) ≤ 1) ∧
    (((-1 ≤ (lateral_thruster_calc 1 1 1).fr ∧ (lateral_thruster_calc 1 1 1).fr ≤ 1) ∧
      (-1 ≤ (lateral_thruster_calc 1 1 1).fl ∧ (lateral_thruster_calc 1 1 1).fl ≤ 1) ∧
      (-1 ≤ (lateral_thruster_calc 1 1 1).rr ∧ (lateral_thruster_calc 1 1 1).rr ≤ 1) ∧
      (-1 ≤ (lateral_thruster_calc 1 1 1).rl ∧ (lateral_thruster_calc 1 1 1).rl ≤ 1)) ∧
     ((-1 ≤ (vertical_pwm_calc 1 1).fv ∧ (vertical_pwm_calc 1 1).fv ≤ 1) ∧
      (-1 ≤ (vertical_pwm_calc 1 1).rv ∧ (vertical_pwm_calc 1 1).rv ≤ 1))) :=
  ⟨by norm_num,
   c9_allocator_outputs_normalized 1 1 1 1 1 (by norm_num) (by norm_num)
     (by norm_num) (by norm_num) (by norm_num) (by norm_num) (by norm_num)
     (by norm_num) (by norm_num) (by norm_num)⟩

/-- C10: `reverse_polarity` is an involution — two calls restore the original
polarity mask and hence the original `get_pwm` output for the same stored
power — and each call returns `True` exactly when the resulting
`polarity_mask` is -1. -/
theorem c10_reverse_polarity_involution (t : ThrusterState) :
    (Thruster.reverse_polarity (Thruster.reverse_polarity t).2).2 = t ∧
    ((Thruster.reverse_polarity t).1 = true ↔
      (Thruster.reverse_polarity t).2.polarity_mask = -1) ∧
    ((Thruster.reverse_polarity (Thruster.reverse_polarity t).2).1 = true ↔
      (Thruster.reverse_polarity (Thruster.reverse_polarity t).2).2.polarity_mask = -1) ∧
    Thruster.get_pwm (Thruster.reverse_polarity (Thruster.reverse_polarity t).2).2 =
      Thruster.get_pwm t := by
  obtain ⟨p, m, mu, pr⟩ := t
  refine ⟨by simp [Thruster.reverse_polarity], ?_, ?_,
    by simp [Thruster.reverse_polarity]⟩
  · simp only [Thruster.reverse_polarity]
    split <;> simp_all
  · simp only [Thruster.reverse_polarity]
    split <;> simp_all

end SurfaceCode
